import Mathlib

/-!
Shallow embedding of the ComfoAir-to-MQTT bridge (`hasscomfoair.py`).

The Python handler owns a single dict `self._cache` whose keys are either
integer command ids (written only by `ComfoAirHandler.event`) or the string
literals `"speed"` and `"state"` (written only by `fan_speed_mode`).  Python
dict keys of distinct types never collide, so the dict is embedded as a
record with an association list for the integer keys and one optional slot
per string key.

Machine bytes are embedded as `Nat`; a raw frame payload is a `List Nat`.
Python exceptions (IndexError from an unguarded list index, AssertionError
from a failed `assert`) are embedded as `none` of an `Option` result, or as
an explicit error flag when side effects precede the raise.
-/

namespace HassComfoAir

/-- Topic string `comfoair/temp/outside`. -/
def TOPIC_TEMP_OUTSIDE : String := "comfoair/temp/outside"

/-- Topic string `comfoair/fan/speed`. -/
def TOPIC_FAN_SPEED : String := "comfoair/fan/speed"

/-- Topic string `comfoair/fan/state`. -/
def TOPIC_FAN_STATE : String := "comfoair/fan/state"

/-- `ComfoAirHandler.SPEED_VALUES = ["auto", "off", "low", "medium", "high"]`. -/
def SPEED_VALUES : List String := ["auto", "off", "low", "medium", "high"]

/-- `ComfoAirHandler.STATE_VALUES = ["on", "off"]`. -/
def STATE_VALUES : List String := ["on", "off"]

/-- The handler's `self._cache` dict: integer command-id keys (raw frames),
plus the `"speed"` and `"state"` string keys. -/
structure Cache where
  raw : List (Nat × List Nat)
  speed : Option String
  state : Option String
deriving DecidableEq, Repr

/-- The fresh `self._cache = {}` built by `ComfoAirHandler.__init__`. -/
def Cache.empty : Cache := ⟨[], none, none⟩

/-- `ComfoAirHandler.invalidate_cache`: `self._cache = {}`. -/
def invalidate_cache (_ : Cache) : Cache := Cache.empty

/-- Python list indexing `l[i]` for an `int` index: negative indices count
from the end; any other out-of-range index raises IndexError (`none`). -/
def pyGet (l : List String) (i : Int) : Option String :=
  let j : Int := if i < 0 then i + l.length else i
  if j < 0 then none else l.get? j.toNat

/-- Python truthiness test `not x` on `self._cache.get(k)`: `None` and the
empty string are falsy, every other string is truthy. -/
def pyFalsy : Option String → Bool
  | none => true
  | some s => s = ""

/-- One `mqtt.publish(topic, payload, retain=...)` call. -/
structure Pub where
  topic : String
  payload : String
  retain : Bool
deriving DecidableEq, Repr

/-- Result of one `fan_speed_mode` call: updated cache and publications in
program order. -/
structure FanOut where
  cache : Cache
  pubs : List Pub
deriving DecidableEq, Repr

/-- `ComfoAirHandler.fan_speed_mode`: `speed = self.SPEED_VALUES[value]` with
no bound guard (`none` = uncaught IndexError); `off` branch publishes retained
state=off; non-auto branch publishes retained state=on when the cached prior
speed is falsy or `"off"`, then publishes the speed; both branches finally
write `self._cache["speed"] = speed`. -/
def fan_speed_mode (c : Cache) (value : Int) : Option FanOut :=
  match pyGet SPEED_VALUES value with
  | none => none
  | some speed =>
    if speed = "off" then
      some ⟨{ c with state := some "off", speed := some speed },
            [⟨TOPIC_FAN_STATE, "off", true⟩]⟩
    else if speed ≠ "auto" then
      if pyFalsy c.speed || c.speed == some "off" then
        some ⟨{ c with state := some "on", speed := some speed },
              [⟨TOPIC_FAN_STATE, "on", true⟩, ⟨TOPIC_FAN_SPEED, speed, false⟩]⟩
      else
        some ⟨{ c with speed := some speed }, [⟨TOPIC_FAN_SPEED, speed, false⟩]⟩
    else
      some ⟨{ c with speed := some speed }, []⟩

/-- Feed a list of raw fan-speed values through `fan_speed_mode`, threading
the cache and concatenating publications; `none` if any call raises. -/
def runSpeeds (c : Cache) : List Int → Option (Cache × List Pub)
  | [] => some (c, [])
  | v :: vs =>
    match fan_speed_mode c v with
    | none => none
    | some o =>
      match runSpeeds o.cache vs with
      | none => none
      | some (c', ps) => some (c', o.pubs ++ ps)

/-- Count of state=on publications in a publication list. -/
def countStateOn (ps : List Pub) : Nat :=
  (ps.filter (fun p => p.topic = TOPIC_FAN_STATE && p.payload = "on")).length

/-- Count of publications of a given level on the speed topic. -/
def countSpeed (s : String) (ps : List Pub) : Nat :=
  (ps.filter (fun p => p.topic = TOPIC_FAN_SPEED && p.payload = s)).length

/-- Result of one inbound-command handler call: cache (returned unchanged by
the source, which contains no cache write), `ca.set_speed` calls in order,
and whether the invalid-value log line fired. -/
structure CmdOut where
  cache : Cache
  calls : List Nat
  invalidLog : Bool
deriving DecidableEq, Repr

/-- `ComfoAirHandler.handle_set_speed`: vocabulary check against
`SPEED_VALUES`, then `pos = SPEED_VALUES.index(value)` and a
`ca.set_speed(pos)` call iff `1 <= pos <= 4`. -/
def handle_set_speed (c : Cache) (value : String) : CmdOut :=
  if value ∉ SPEED_VALUES then ⟨c, [], true⟩
  else
    let pos := SPEED_VALUES.indexOf value
    if 1 ≤ pos ∧ pos ≤ 4 then ⟨c, [pos], false⟩ else ⟨c, [], false⟩

/-- `ComfoAirHandler.handle_set_fan_state`: vocabulary check against
`STATE_VALUES`; `"off"` always calls `ca.set_speed(1)`; `"on"` calls
`ca.set_speed(2)` iff `self._cache.get("speed")` is falsy or `"off"`. -/
def handle_set_fan_state (c : Cache) (value : String) : CmdOut :=
  if value ∉ STATE_VALUES then ⟨c, [], true⟩
  else if value = "off" then ⟨c, [1], false⟩
  else if pyFalsy c.speed || c.speed == some "off" then ⟨c, [2], false⟩
  else ⟨c, [], false⟩

/-- The `cc_segments` table of `decode_display_data`: one row of eight
segment labels per display cell. -/
def cc_segments : List (List String) :=
  [["Sa", "Su", "Mo", "Tu", "We", "Th", "Fri", ":"],
   ["1ADEG", "1B", "1C", "AUTO", "MANUAL", "FILTER", "I", "E"],
   ["2A", "2B", "2C", "2D", "2E", "2F", "2G", "Ventilation"],
   ["3A", "3B", "3C", "3D", "3E", "3F", "3G", "Extractor hood"],
   ["4A", "4B", "4C", "4D", "4E", "4F", "4G", "Pre-heater"],
   ["5A", "5B", "5C", "5D", "5E", "5F", "5G", "Frost"],
   ["6A", "6B", "6C", "6D", "6E", "6F", "6G", "EWT"],
   ["7A", "7B", "7C", "7D", "7E", "7F", "7G", "Post-heater"],
   ["8A", "8B", "8C", "8D", "8E", "8F", "8G", "."],
   ["°", "Bypass", "9AEF", "9G", "9D", "House", "Supply air", "Exhaust air"]]

/-- The `ssd_chr` seven-segment pattern-to-character table; `none` for a
pattern absent from the dict (the `assert digit in ssd_chr` failure case). -/
def ssd_chr (n : Nat) : Option String :=
  if n = 0b0000000 then some " "
  else if n = 0b0111111 then some "0"
  else if n = 0b0000110 then some "1"
  else if n = 0b1011011 then some "2"
  else if n = 0b1001111 then some "3"
  else if n = 0b1100110 then some "4"
  else if n = 0b1101101 then some "5"
  else if n = 0b1111101 then some "6"
  else if n = 0b0000111 then some "7"
  else if n = 0b1111111 then some "8"
  else if n = 0b1101111 then some "9"
  else if n = 0b1110111 then some "A"
  else if n = 0b1111100 then some "B"
  else if n = 0b0111001 then some "C"
  else if n = 0b1011110 then some "D"
  else if n = 0b1111001 then some "E"
  else if n = 0b1110001 then some "F"
  else none

/-- The trailing `for i in range(offset, 8)` loop of `decode_display_data`:
labels of `row` whose bit is lit in `val`, positions `lo` to `7`. -/
def litLabels (row : List String) (val : Nat) (lo : Nat) : List String :=
  ((List.range 8).drop lo).filterMap
    (fun i => if val.testBit i then row.get? i else none)

/-- The body of `decode_display_data`'s loop for one cell at position `pos`
with byte `val`: `none` when the `assert digit in ssd_chr` fails. -/
def decodeCell (pos val : Nat) : Option (List String) :=
  let row := cc_segments.getD pos []
  if pos = 1 then
    let digit := (val.land 6).lor (if val.testBit 0 then 0b1011001 else 0)
    match ssd_chr digit with
    | none => none
    | some ch => some (ch :: litLabels row val 3)
  else if 2 ≤ pos ∧ pos ≤ 8 then
    let digit := val.land 0x7f
    match ssd_chr digit with
    | none => none
    | some ch => some (ch :: litLabels row val 7)
  else if pos = 9 then
    let digit := (if val.testBit 2 then 0b0110001 else 0) |||
                 (if val.testBit 3 then 0b1000000 else 0) |||
                 (if val.testBit 4 then 0b0001000 else 0)
    match ssd_chr digit with
    | none => none
    | some ch =>
      some (ch :: [0, 1, 5, 6, 7].filterMap
        (fun i => if val.testBit i then row.get? i else none))
  else
    some (litLabels row val 0)

/-- `decode_display_data`: when the input length matches the table's cell
count, decode every cell (an assertion failure anywhere aborts the whole
call: `none`); a length mismatch falls through the `if` and produces
nothing (`some []`), not an error. -/
def decode_display_data (data : List Nat) : Option (List String) :=
  if data.length = cc_segments.length then
    (data.enum.mapM (fun p => decodeCell p.1 p.2)).map List.flatten
  else some []

/-- Result of one `ComfoAirHandler.event` call: updated cache, the log
emissions (one `Msg` line per non-duplicate event), and whether an
assertion error escaped the call (the source has no exception handler
around `decode_display_data`). -/
structure EventOut where
  cache : Cache
  emits : List (Nat × List Nat)
  decodeErr : Bool
deriving DecidableEq, Repr

/-- `ComfoAirHandler.event`: early return when `self._cache.get(cmd)` equals
the payload; otherwise cache the payload, log the event, and for command
`0x3c` run the display decoder with no exception handling. -/
def event (c : Cache) (cmd : Nat) (data : List Nat) : EventOut :=
  if c.raw.lookup cmd = some data then ⟨c, [], false⟩
  else
    let c' := { c with raw := (cmd, data) :: c.raw }
    if cmd = 0x3c then
      match decode_display_data data with
      | none => ⟨c', [(cmd, data)], true⟩
      | some _ => ⟨c', [(cmd, data)], false⟩
    else ⟨c', [(cmd, data)], false⟩

/-- Thread a list of raw frames through `event`, keeping the final cache. -/
def runEvents (c : Cache) : List (Nat × List Nat) → Cache
  | [] => c
  | (k, d) :: rest => runEvents (event c k d).cache rest

/-- One step of the body of the `while True` loop in `mqtt_connection`, in
source order. -/
inductive SupStep where
  | mkClient
  | newHandler
  | setWill
  | connectMqtt
  | sendConfig
  | pubAvail
  | attachListeners
  | messageLoop
deriving DecidableEq, Repr

/-- The straight-line sequence of one `mqtt_connection` loop iteration:
build the client, build a fresh `ComfoAirHandler` (whose constructor sets
`self._cache = {}`), set the will, connect, send discovery config, publish
availability, `add_ca_listeners`, then `handle_mqtt_message`. -/
def mqttIteration : List SupStep :=
  [.mkClient, .newHandler, .setWill, .connectMqtt, .sendConfig, .pubAvail,
   .attachListeners, .messageLoop]

/-- The handler cache in scope when `attachListeners` executes: scanning the
step list, `newHandler` installs the fresh empty cache and no other step
before `attachListeners` touches it. -/
def handlerCacheAtAttach : List SupStep → Option Cache → Option Cache
  | [], _ => none
  | .attachListeners :: _, acc => acc
  | .newHandler :: rest, _ => handlerCacheAtAttach rest (some Cache.empty)
  | _ :: rest, acc => handlerCacheAtAttach rest acc

/-- Well-formedness of the `"speed"` cache slot: the only write to it in the
source is `self._cache["speed"] = speed` with `speed` drawn from
`SPEED_VALUES`, so the slot is absent or holds one of the five values. -/
def wfSpeed (c : Cache) : Prop :=
  c.speed = none ∨ c.speed ∈ SPEED_VALUES.map some

instance (c : Cache) : Decidable (wfSpeed c) := by
  unfold wfSpeed; infer_instance

/-! ## Helper lemmas -/

theorem pyGet_mem {l : List String} {i : Int} {a : String}
    (h : pyGet l i = some a) : a ∈ l := by
  by_cases hneg : (if i < 0 then i + (l.length : Int) else i) < 0
  · simp [pyGet, hneg] at h
  · simp only [pyGet, if_neg hneg] at h
    exact List.get?_mem h

theorem pyGet_speed_cases {v : Int} {s : String}
    (h : pyGet SPEED_VALUES v = some s) :
    s = "auto" ∨ s = "off" ∨ s = "low" ∨ s = "medium" ∨ s = "high" := by
  have := pyGet_mem h
  simpa [SPEED_VALUES] using this

theorem speedCond_iff (c : Cache) (hw : wfSpeed c) :
    ((pyFalsy c.speed || c.speed == some "off") = true) ↔
      (c.speed = none ∨ c.speed = some "off") := by
  rcases hw with h | h
  · simp [h, pyFalsy]
  · simp only [SPEED_VALUES, List.map, List.mem_cons, List.not_mem_nil, or_false] at h
    rcases h with h | h | h | h | h <;> rw [h] <;> simp [pyFalsy]

theorem fan_speed_mode_off {c : Cache} {v : Int}
    (hs : pyGet SPEED_VALUES v = some "off") :
    fan_speed_mode c v =
      some ⟨{ c with state := some "off", speed := some "off" },
            [⟨TOPIC_FAN_STATE, "off", true⟩]⟩ := by
  unfold fan_speed_mode
  rw [hs]
  rfl

theorem fan_speed_mode_auto {c : Cache} {v : Int}
    (hs : pyGet SPEED_VALUES v = some "auto") :
    fan_speed_mode c v = some ⟨{ c with speed := some "auto" }, []⟩ := by
  unfold fan_speed_mode
  rw [hs]
  rfl

theorem fan_speed_mode_run_edge {c : Cache} {v : Int} {s : String}
    (hs : pyGet SPEED_VALUES v = some s) (h1 : s ≠ "off") (h2 : s ≠ "auto")
    (hcond : (pyFalsy c.speed || c.speed == some "off") = true) :
    fan_speed_mode c v =
      some ⟨{ c with state := some "on", speed := some s },
            [⟨TOPIC_FAN_STATE, "on", true⟩, ⟨TOPIC_FAN_SPEED, s, false⟩]⟩ := by
  unfold fan_speed_mode
  rw [hs]
  simp [h1, h2, hcond]

theorem fan_speed_mode_run_level {c : Cache} {v : Int} {s : String}
    (hs : pyGet SPEED_VALUES v = some s) (h1 : s ≠ "off") (h2 : s ≠ "auto")
    (hcond : (pyFalsy c.speed || c.speed == some "off") = false) :
    fan_speed_mode c v =
      some ⟨{ c with speed := some s }, [⟨TOPIC_FAN_SPEED, s, false⟩]⟩ := by
  unfold fan_speed_mode
  rw [hs]
  simp [h1, h2, hcond]

theorem event_unfold (c : Cache) (cmd : Nat) (data : List Nat) :
    event c cmd data =
      if c.raw.lookup cmd = some data then ⟨c, [], false⟩
      else ⟨{ c with raw := (cmd, data) :: c.raw }, [(cmd, data)],
            cmd = 0x3c && (decode_display_data data).isNone⟩ := by
  unfold event
  by_cases h : c.raw.lookup cmd = some data
  · simp [h]
  · simp only [if_neg h]
    by_cases h3c : cmd = 0x3c
    · subst h3c
      cases hd : decode_display_data data <;> simp [hd]
    · simp [h3c]

/-! ## Claim theorems -/

/-- Claim C3: the fan-speed translator indexes `SPEED_VALUES[value]` with no
bound guard.  Raw value `5` reaches the positional lookup and faults
(uncaught IndexError, modelled as `none`), and raw value `-1` is silently
accepted by Python's negative indexing, resolving to `"high"` and
publishing — so out-of-range input is neither rejected before the lookup
nor free of publication. -/
theorem unguarded_speed_lookup :
    fan_speed_mode Cache.empty 5 = none
    ∧ pyGet SPEED_VALUES (-1 : Int) = some "high"
    ∧ fan_speed_mode Cache.empty (-1) =
        some ⟨⟨[], some "high", some "on"⟩,
              [⟨TOPIC_FAN_STATE, "on", true⟩, ⟨TOPIC_FAN_SPEED, "high", false⟩]⟩ :=
  ⟨rfl, rfl, rfl⟩

/-- Claim C7: a display bitfield whose second cell computes a digit pattern
absent from `ssd_chr` makes `decode_display_data` fail explicitly (`none`,
the failed `assert`), and because `ComfoAirHandler.event` invokes the
decoder with no exception handling, the failure escapes the per-frame
event call (`decodeErr = true`) instead of being isolated; a
length-mismatched input produces an empty result, not an error. -/
theorem display_decode_error_escapes :
    decode_display_data [0, 2, 0, 0, 0, 0, 0, 0, 0, 0] = none
    ∧ (event Cache.empty 0x3c [0, 2, 0, 0, 0, 0, 0, 0, 0, 0]).decodeErr = true
    ∧ decode_display_data [0, 0, 0] = some [] :=
  ⟨rfl, rfl, rfl⟩

/-- Claim C9: a fan-speed event whose raw value resolves to `auto` publishes
nothing on the state or speed topics, leaves the `"state"` slot and the raw
command entries untouched, and still updates the cached `"speed"` slot to
`auto`. -/
theorem auto_updates_baseline_only (c : Cache) (v : Int) (o : FanOut)
    (hs : pyGet SPEED_VALUES v = some "auto")
    (ho : fan_speed_mode c v = some o) :
    o.pubs = [] ∧ o.cache.speed = some "auto"
    ∧ o.cache.state = c.state ∧ o.cache.raw = c.raw := by
  rw [fan_speed_mode_auto hs] at ho
  cases ho
  exact ⟨rfl, rfl, rfl, rfl⟩

/-- Witness for C9 at the concrete input `speed index 0` on the empty
cache. -/
theorem auto_updates_baseline_only_witness :
    pyGet SPEED_VALUES 0 = some "auto"
    ∧ fan_speed_mode Cache.empty 0 = some ⟨⟨[], some "auto", none⟩, []⟩
    ∧ ((⟨⟨[], some "auto", none⟩, []⟩ : FanOut).pubs = []
        ∧ (⟨⟨[], some "auto", none⟩, []⟩ : FanOut).cache.speed = some "auto"
        ∧ (⟨⟨[], some "auto", none⟩, []⟩ : FanOut).cache.state = Cache.empty.state
        ∧ (⟨⟨[], some "auto", none⟩, []⟩ : FanOut).cache.raw = Cache.empty.raw) :=
  ⟨rfl, rfl, auto_updates_baseline_only Cache.empty 0 ⟨⟨[], some "auto", none⟩, []⟩ rfl rfl⟩

/-- Claim C6: `handle_set_speed` drops (with a log) any payload outside the
five-value vocabulary without calling the device; each of
`off`, `low`, `medium`, `high` issues exactly one `set_speed` call whose
index is the payload's fixed position (1..4); `auto` is accepted as valid
(no invalid-value log) but issues no call. -/
theorem set_speed_command_spec (c : Cache) (v : String) :
    (v ∉ SPEED_VALUES → handle_set_speed c v = ⟨c, [], true⟩)
    ∧ handle_set_speed c "auto" = ⟨c, [], false⟩
    ∧ handle_set_speed c "off" = ⟨c, [1], false⟩
    ∧ handle_set_speed c "low" = ⟨c, [2], false⟩
    ∧ handle_set_speed c "medium" = ⟨c, [3], false⟩
    ∧ handle_set_speed c "high" = ⟨c, [4], false⟩ := by
  refine ⟨fun h => ?_, rfl, rfl, rfl, rfl, rfl⟩
  simp [handle_set_speed, h]

/-- Witness for C6 at the concrete invalid payload `"turbo"` on the empty
cache. -/
theorem set_speed_command_spec_witness :
    "turbo" ∉ SPEED_VALUES
    ∧ handle_set_speed Cache.empty "turbo" = ⟨Cache.empty, [], true⟩ :=
  ⟨by decide, (set_speed_command_spec Cache.empty "turbo").1 (by decide)⟩

/-- Claim C4: in each iteration of the MQTT connection loop, the handler's
dedup cache is made empty exactly once (the fresh `ComfoAirHandler`
construction) and this happens strictly before the single
listener-attachment step, so the cache in scope when listeners attach is
empty; and processing any first raw frame against the empty cache is never
suppressed — it is always emitted. -/
theorem cache_cleared_before_attach :
    mqttIteration.count SupStep.newHandler = 1
    ∧ mqttIteration.indexOf SupStep.newHandler <
        mqttIteration.indexOf SupStep.attachListeners
    ∧ handlerCacheAtAttach mqttIteration none = some Cache.empty
    ∧ ∀ cmd data, (event Cache.empty cmd data).emits = [(cmd, data)] := by
  refine ⟨by decide, by decide, rfl, fun cmd data => ?_⟩
  rw [event_unfold]
  simp [Cache.empty]

/-- Claim C2: after any prefix of raw frames, an event whose payload equals
the cached value for its command id is never emitted and leaves the handler
without side effects (the early return); an event whose payload differs, or
whose command id has no cached value, is emitted exactly once and becomes
the new cached value. -/
theorem dedup_exactly_once (c₀ : Cache) (pre : List (Nat × List Nat))
    (cmd : Nat) (data : List Nat) :
    ((event (runEvents c₀ pre) cmd data).emits = [] ↔
      (runEvents c₀ pre).raw.lookup cmd = some data)
    ∧ ((runEvents c₀ pre).raw.lookup cmd = some data →
        event (runEvents c₀ pre) cmd data = ⟨runEvents c₀ pre, [], false⟩)
    ∧ ((runEvents c₀ pre).raw.lookup cmd ≠ some data →
        (event (runEvents c₀ pre) cmd data).emits = [(cmd, data)]
        ∧ (event (runEvents c₀ pre) cmd data).cache.raw.lookup cmd = some data) := by
  rw [event_unfold]
  by_cases h : (runEvents c₀ pre).raw.lookup cmd = some data <;> simp [h]

/-- Witness for C2 at a concrete duplicate and a concrete fresh event:
after the prefix `[(7, [1])]` from the empty cache, payload `[1]` on
command `7` is cached, and a differing payload `[2]` is not. -/
theorem dedup_exactly_once_witness :
    (runEvents Cache.empty [(7, [1])]).raw.lookup 7 = some [1]
    ∧ event (runEvents Cache.empty [(7, [1])]) 7 [1] =
        ⟨runEvents Cache.empty [(7, [1])], [], false⟩
    ∧ (runEvents Cache.empty [(7, [1])]).raw.lookup 7 ≠ some [2]
    ∧ (event (runEvents Cache.empty [(7, [1])]) 7 [2]).emits = [(7, [2])] :=
  ⟨by decide,
   (dedup_exactly_once Cache.empty [(7, [1])] 7 [1]).2.1 (by decide),
   by decide,
   ((dedup_exactly_once Cache.empty [(7, [1])] 7 [2]).2.2 (by decide)).1⟩

/-- Claim C5: `handle_set_fan_state` drops (with a log) any payload outside
`{on, off}` without calling the device; payload `off` always issues exactly
the single call `set_speed(1)` regardless of the cached speed; payload `on`
issues exactly the single call `set_speed(2)` when the cached speed is
absent or `off`, and no call when the cached speed is a present non-`off`
value. -/
theorem set_fan_state_command_spec (c : Cache) (v : String) (hw : wfSpeed c) :
    (v ∉ STATE_VALUES → handle_set_fan_state c v = ⟨c, [], true⟩)
    ∧ handle_set_fan_state c "off" = ⟨c, [1], false⟩
    ∧ ((c.speed = none ∨ c.speed = some "off") →
        handle_set_fan_state c "on" = ⟨c, [2], false⟩)
    ∧ (∀ t, c.speed = some t → t ≠ "off" →
        handle_set_fan_state c "on" = ⟨c, [], false⟩) := by
  refine ⟨fun h => by simp [handle_set_fan_state, h], rfl, fun h => ?_, fun t ht hoff => ?_⟩
  · have hc : (pyFalsy c.speed || c.speed == some "off") = true :=
      (speedCond_iff c hw).mpr h
    simp [handle_set_fan_state, hc, STATE_VALUES]
  · have hc : ¬(c.speed = none ∨ c.speed = some "off") := by
      rintro (h | h) <;> rw [ht] at h
      · exact Option.noConfusion h
      · exact hoff (Option.some.injEq .. ▸ h)
    have hc' : (pyFalsy c.speed || c.speed == some "off") = false := by
      rcases hb : (pyFalsy c.speed || c.speed == some "off") with _ | _
      · rfl
      · exact absurd ((speedCond_iff c hw).mp hb) hc
    simp [handle_set_fan_state, hc', STATE_VALUES]

/-- Witness for C5 at concrete inputs: invalid payload `"toggle"` on the
empty cache, and payload `on` while the cached speed is `medium`. -/
theorem set_fan_state_command_spec_witness :
    wfSpeed Cache.empty
    ∧ "toggle" ∉ STATE_VALUES
    ∧ handle_set_fan_state Cache.empty "toggle" = ⟨Cache.empty, [], true⟩
    ∧ wfSpeed ⟨[], some "medium", none⟩
    ∧ handle_set_fan_state ⟨[], some "medium", none⟩ "on" =
        ⟨⟨[], some "medium", none⟩, [], false⟩ :=
  ⟨by decide, by decide,
   (set_fan_state_command_spec Cache.empty "toggle" (by decide)).1 (by decide),
   by decide,
   (set_fan_state_command_spec ⟨[], some "medium", none⟩ "on" (by decide)).2.2.2
     "medium" rfl (by decide)⟩

/-- Claim C10: the inbound command handlers contain no cache write — both
return the cache argument unchanged for every payload — and consequently
two consecutive `on` commands with no intervening fan-speed event each
issue the `set_speed(2)` call when the cached speed is absent or `off`. -/
theorem command_handlers_no_cache_write (c : Cache) (v w : String) :
    (handle_set_speed c v).cache = c
    ∧ (handle_set_fan_state c w).cache = c
    ∧ ((c.speed = none ∨ c.speed = some "off") →
        handle_set_fan_state c "on" = ⟨c, [2], false⟩
        ∧ handle_set_fan_state (handle_set_fan_state c "on").cache "on" =
            ⟨c, [2], false⟩) := by
  have hs : (handle_set_speed c v).cache = c := by
    unfold handle_set_speed
    split
    · rfl
    · dsimp only
      split <;> rfl
  have hf : ∀ u, (handle_set_fan_state c u).cache = c := by
    intro u
    unfold handle_set_fan_state
    split
    · rfl
    · split
      · rfl
      · split <;> rfl
  refine ⟨hs, hf w, fun h => ?_⟩
  have hc : (pyFalsy c.speed || c.speed == some "off") = true := by
    rcases h with h | h <;> rw [h] <;> rfl
  have hon : handle_set_fan_state c "on" = ⟨c, [2], false⟩ := by
    simp [handle_set_fan_state, hc, STATE_VALUES]
  exact ⟨hon, by rw [hon]; exact hon⟩

/-- Witness for C10 on the empty cache with an arbitrary pair of payloads:
two consecutive `on` commands each issue `set_speed(2)`. -/
theorem command_handlers_no_cache_write_witness :
    (handle_set_speed Cache.empty "low").cache = Cache.empty
    ∧ (handle_set_fan_state Cache.empty "off").cache = Cache.empty
    ∧ (Cache.empty.speed = none ∨ Cache.empty.speed = some "off")
    ∧ (handle_set_fan_state Cache.empty "on" = ⟨Cache.empty, [2], false⟩
        ∧ handle_set_fan_state (handle_set_fan_state Cache.empty "on").cache "on" =
            ⟨Cache.empty, [2], false⟩) :=
  ⟨(command_handlers_no_cache_write Cache.empty "low" "off").1,
   (command_handlers_no_cache_write Cache.empty "low" "off").2.1,
   Or.inl rfl,
   (command_handlers_no_cache_write Cache.empty "low" "off").2.2 (Or.inl rfl)⟩

/-- Claim C8: feeding the translator the raw sequence `off, low` (values
`1, 2`) from any cache publishes state=on exactly once and speed=low exactly
once; feeding it `low, medium` (values `2, 3`) with no intervening off, from
any cache whose fan is already at a truthy non-`off` speed, publishes
state=on exactly zero times and speed=medium exactly once. -/
theorem speed_sequence_publication_counts (c c₂ : Cache) (t : String)
    (h1 : c₂.speed = some t) (h2 : t ≠ "off") (h3 : t ≠ "") :
    (∃ r, runSpeeds c [1, 2] = some r
      ∧ countStateOn r.2 = 1 ∧ countSpeed "low" r.2 = 1)
    ∧ (∃ r, runSpeeds c₂ [2, 3] = some r
      ∧ countStateOn r.2 = 0 ∧ countSpeed "medium" r.2 = 1) := by
  constructor
  · exact ⟨({ c with state := some "on", speed := some "low" },
      [⟨TOPIC_FAN_STATE, "off", true⟩, ⟨TOPIC_FAN_STATE, "on", true⟩,
       ⟨TOPIC_FAN_SPEED, "low", false⟩]), rfl, rfl, rfl⟩
  · have hc2 : (pyFalsy c₂.speed || c₂.speed == some "off") = false := by
      rw [h1]
      simp [pyFalsy, h3, beq_eq_false_iff_ne, h2]
    have hstep1 := fan_speed_mode_run_level (c := c₂) (v := 2)
      (s := "low") rfl (by decide) (by decide) hc2
    have hstep2 := fan_speed_mode_run_level (c := { c₂ with speed := some "low" })
      (v := 3) (s := "medium") rfl (by decide) (by decide) rfl
    refine ⟨({ { c₂ with speed := some "low" } with speed := some "medium" },
      [⟨TOPIC_FAN_SPEED, "low", false⟩, ⟨TOPIC_FAN_SPEED, "medium", false⟩]),
      ?_, rfl, rfl⟩
    simp [runSpeeds, hstep1, hstep2]

/-- Witness for C8 with the empty cache for the first sequence and a cache
whose speed slot holds `"low"` for the second. -/
theorem speed_sequence_publication_counts_witness :
    (⟨[], some "low", none⟩ : Cache).speed = some "low"
    ∧ ("low" : String) ≠ "off" ∧ ("low" : String) ≠ ""
    ∧ ((∃ r, runSpeeds Cache.empty [1, 2] = some r
        ∧ countStateOn r.2 = 1 ∧ countSpeed "low" r.2 = 1)
      ∧ (∃ r, runSpeeds ⟨[], some "low", none⟩ [2, 3] = some r
        ∧ countStateOn r.2 = 0 ∧ countSpeed "medium" r.2 = 1)) :=
  ⟨rfl, by decide, by decide,
   speed_sequence_publication_counts Cache.empty ⟨[], some "low", none⟩ "low"
     rfl (by decide) (by decide)⟩

/-- Claim C1: for every fan-speed event the translator accepts, the cached
`"state"` key is written `off` (with a retained state=off publication) iff
the resolved speed is `off`; a state=on publication occurs iff the resolved
speed is in `{low, medium, high}` and the prior cached speed was absent or
`off` (the rising edge), in which case it is retained and the `"state"` key
becomes `on`; and when the prior cached speed is already a present non-off
level, a running-level event publishes nothing on the state topic —
edge-triggered, not level-triggered. -/
theorem fan_state_edge_trigger (c : Cache) (v : Int) (s : String) (o : FanOut)
    (hw : wfSpeed c) (hs : pyGet SPEED_VALUES v = some s)
    (ho : fan_speed_mode c v = some o) :
    ((Pub.mk TOPIC_FAN_STATE "off" true ∈ o.pubs ∧ o.cache.state = some "off")
      ↔ s = "off")
    ∧ (Pub.mk TOPIC_FAN_STATE "on" true ∈ o.pubs ↔
        (s ∈ ["low", "medium", "high"]
          ∧ (c.speed = none ∨ c.speed = some "off")))
    ∧ (Pub.mk TOPIC_FAN_STATE "on" true ∈ o.pubs → o.cache.state = some "on")
    ∧ (∀ t, c.speed = some t → t ≠ "off" → s ∈ ["low", "medium", "high"] →
        ∀ p ∈ o.pubs, p.topic ≠ TOPIC_FAN_STATE) := by
  have hcond := speedCond_iff c hw
  rcases pyGet_speed_cases hs with h | h | h | h | h <;> subst h
  · rw [fan_speed_mode_auto hs] at ho
    cases ho
    simp +decide
  · rw [fan_speed_mode_off hs] at ho
    cases ho
    simp +decide
  all_goals {
    cases hb : (pyFalsy c.speed || c.speed == some "off")
    · have hnc : ¬(c.speed = none ∨ c.speed = some "off") := fun hcon => by
        simp [hcond.mpr hcon] at hb
      rw [fan_speed_mode_run_level hs (by decide) (by decide) hb] at ho
      cases ho
      simp +decide [hnc]
    · rw [fan_speed_mode_run_edge hs (by decide) (by decide) hb] at ho
      cases ho
      have hco := hcond.mp hb
      refine ⟨by simp +decide, by simp +decide [hco], by simp +decide, ?_⟩
      intro t ht htoff _ p hp
      rcases hco with h' | h'
      · rw [ht] at h'
        exact Option.noConfusion h'
      · rw [ht] at h'
        exact absurd (Option.some.inj h') htoff }

/-- Witness for C1 at the concrete rising edge: raw value `2` (`low`) on
the empty cache. -/
theorem fan_state_edge_trigger_witness :
    wfSpeed Cache.empty
    ∧ pyGet SPEED_VALUES 2 = some "low"
    ∧ fan_speed_mode Cache.empty 2 =
        some ⟨⟨[], some "low", some "on"⟩,
              [⟨TOPIC_FAN_STATE, "on", true⟩, ⟨TOPIC_FAN_SPEED, "low", false⟩]⟩
    ∧ (Pub.mk TOPIC_FAN_STATE "on" true ∈
        (⟨⟨[], some "low", some "on"⟩,
          [⟨TOPIC_FAN_STATE, "on", true⟩,
           ⟨TOPIC_FAN_SPEED, "low", false⟩]⟩ : FanOut).pubs ↔
        (("low" : String) ∈ ["low", "medium", "high"]
          ∧ (Cache.empty.speed = none ∨ Cache.empty.speed = some "off"))) :=
  ⟨by decide, rfl, rfl,
   (fan_state_edge_trigger Cache.empty 2 "low" _ (by decide) rfl rfl).2.1⟩

end HassComfoAir
